import Mathlib

/-!
# FOTA demo firmware (`main.cpp`): update-lifecycle callbacks and startup

A shallow embedding of `src/main.cpp`.  Every function of the source that calls
into a collaborator (display, thread table, network driver, cloud client,
keystore, factory configurator) is embedded as a pure function that returns the
list of collaborator calls it performs, in program order, together with its
return value.  Values that the source takes from headers that are not part of
the repository (enumerators, `MBED_CONF_*` macros, errno numbers) are fields of
`Config`; answers of the collaborators are explicit arguments.
-/

namespace Fota

/-! ## Data model -/

/-- Thread table index, `enum FOTA_THREADS` (without the `FOTA_THREAD_COUNT` sentinel). -/
inductive FOTA_THREADS where
  | FOTA_THREAD_DISPLAY
  | FOTA_THREAD_SENSOR_LIGHT
  | FOTA_THREAD_DHT
  deriving DecidableEq, Repr

/-- Security modes returned by `wifi_security_str2sec` (`nsapi_security_t`). -/
inductive nsapi_security_t where
  | NSAPI_SECURITY_NONE
  | NSAPI_SECURITY_WEP
  | NSAPI_SECURITY_WPA
  | NSAPI_SECURITY_WPA2
  | NSAPI_SECURITY_WPA_WPA2
  deriving DecidableEq, Repr

/-- Indicator selected in `led_set_color`; the source only uses `IND_FWUP`. -/
inductive Indicator where
  | IND_FWUP
  deriving DecidableEq, Repr

/-- Colour passed to `led_set_color`; the source only uses `IND_COLOR_FAILED`. -/
inductive IndColor where
  | IND_COLOR_FAILED
  deriving DecidableEq, Repr

/-- The two resources that `thread_dht` creates: `dht_t_res` (object 3303,
temperature) and `dht_h_res` (object 3304, humidity). -/
inductive DhtResource where
  | dht_t_res
  | dht_h_res
  deriving DecidableEq, Repr

/-- One variadic argument of a `printf` call. -/
inductive PArg where
  | str (s : String)
  | num (n : Int)
  deriving DecidableEq, Repr

/-- Collaborator calls made by the code of `main.cpp`, named after the call in the source. -/
inductive Action where
  | printf (fmt : String) (args : List PArg)
  | thread_start (t : FOTA_THREADS)
  | thread_terminate (t : FOTA_THREADS)
  | thread_prompt_start
  | Thread_wait (ms : Nat)
  | display_init (version : String)
  | display_init_network (kind : String)
  | display_set_downloading
  | display_set_installing
  | display_set_progress (msg : String) (progress total : Nat)
  | display_set_download_complete
  | display_refresh
  | display_set_network_in_progress
  | display_set_network_fail
  | display_set_network_success
  | display_set_cloud_in_progress
  | led_set_color (ind : Indicator) (color : IndColor)
  | led_post
  | update_authorize (request : Int)
  | net_disconnect
  | keystore_open
  | wifi_connect (ssid pass : String) (security : nsapi_security_t)
  | eth_connect
  | new_M2MClient
  | on_registered
  | on_unregistered
  | on_error
  | on_update_authorize
  | on_update_progress
  | call_register
  | fcc_storage_delete
  | fcc_init
  | fcc_developer_flow
  | fcc_verify_device_configured_4mbed_cloud
  | mbed_trace_helper_create_mutex
  | mbed_trace_init
  | mbed_trace_mutex_wait_function_set
  | mbed_trace_mutex_release_function_set
  | sd_init
  | display_register_sensor (name : String)
  | display_set_sensor_status (id : Int) (value : String)
  | create_object (name : String)
  | create_object_instance (object : String)
  | create_dynamic_resource (object name resource_type : String) (observable : Bool)
  | set_operation (res : DhtResource) (operation : String)
  | set_value (res : DhtResource) (value : String)
  | add_resource (object : String)
  | dht_readData
  | tr_debug (fmt : String)
  | tr_error (fmt : String) (args : List PArg)
  deriving DecidableEq, Repr

/-- Constants and build switches that `main.cpp` takes from headers and from
`mbed_app.json`, none of which is part of the repository. -/
structure Config where
  /-- Enumerator `MbedCloudClient::UpdateRequestDownload`. -/
  UpdateRequestDownload : Int
  /-- Enumerator `MbedCloudClient::UpdateRequestInstall`. -/
  UpdateRequestInstall : Int
  MBED_CONF_APP_WIFI : Bool
  MBED_CONF_APP_WIFI_SSID : String
  MBED_CONF_APP_WIFI_PASSWORD : String
  MBED_CONF_APP_WIFI_SECURITY : String
  MBED_CONF_APP_VERSION : String
  /-- Build tag `DEVTAG`, stringified by `xstr`. -/
  DEVTAG : String
  MBED_CONF_APP_FCC_WIPE : Bool
  MBED_CONF_MBED_TRACE_ENABLE : Bool
  FCC_STATUS_SUCCESS : Int
  FCC_STATUS_KCM_FILE_EXIST_ERROR : Int
  BD_ERROR_OK : Int
  EACCES : Int
  ENODEV : Int

/-! ## Sensor thread supervisor -/

/-- Embedding of `start_sensors` (lines 165-171). -/
def start_sensors : List Action :=
  [ .printf "starting all sensors\n" [],
    .thread_start .FOTA_THREAD_SENSOR_LIGHT,
    .thread_start .FOTA_THREAD_DHT ]

/-- Embedding of `stop_sensors` (lines 173-178). -/
def stop_sensors : List Action :=
  [ .printf "stopping all sensors\n" [],
    .thread_terminate .FOTA_THREAD_SENSOR_LIGHT,
    .thread_terminate .FOTA_THREAD_DHT ]

/-- What the DHT driver answers in one pass of the sampling loop: the status
of `dht.readData()`, and the texts that `sprintf` writes into `res_buffer` for
the reading, "%.1f" of `dht.ReadTemperature(CELCIUS)` and "%.0f" of
`dht.ReadHumidity()`. -/
structure DhtReading where
  readError : Int
  temperature_text : String
  humidity_text : String

/-- Embedding of the part of `thread_dht` before its loop (lines 113-142).
The identifiers that the two `display.register_sensor` calls hand back are
arguments of the loop. -/
def thread_dht_setup : List Action :=
  [ .display_register_sensor "Temp",
    .display_register_sensor "Humidity",
    .create_object "3303",
    .create_object_instance "3303",
    .create_dynamic_resource "3303" "1" "temperature_resource" true,
    .set_operation .dht_t_res "GET_ALLOWED",
    .set_value .dht_t_res "0",
    .add_resource "3303",
    .create_object "3304",
    .create_object_instance "3304",
    .create_dynamic_resource "3304" "1" "humidity_resource" true,
    .set_operation .dht_h_res "GET_ALLOWED",
    .set_value .dht_h_res "0",
    .add_resource "3304" ]

/-- Embedding of one pass through the body of the `while (true)` of
`thread_dht` (lines 145-161).  `ERROR_NONE` is the enumerator of `DHT.h`; the
two float arguments of the debug line are not recorded. -/
def thread_dht_iteration (ERROR_NONE thermo_id humidity_id : Int) (r : DhtReading) :
    List Action :=
  [ .dht_readData ]
  ++ (if r.readError = ERROR_NONE then
        [ .tr_debug "DHT: temp = %fC, humi = %f%%\n",
          .set_value .dht_t_res r.temperature_text,
          .display_set_sensor_status thermo_id r.temperature_text,
          .set_value .dht_h_res r.humidity_text,
          .display_set_sensor_status humidity_id r.humidity_text ]
      else
        [ .tr_error "DHT: readData() failed with %d\n" [.num r.readError] ])
  ++ [ .Thread_wait 5000 ]

/-- Embedding of the `while (true)` of `thread_dht` (lines 144-162) over the
successive answers of the DHT driver: the body has no `break` and no `return`,
so every answer is followed by the pass for the next one. -/
def thread_dht_loop (ERROR_NONE thermo_id humidity_id : Int) : List DhtReading → List Action
  | [] => []
  | r :: rest =>
    thread_dht_iteration ERROR_NONE thermo_id humidity_id r
    ++ thread_dht_loop ERROR_NONE thermo_id humidity_id rest

/-- Effect of one call on the values of the two DHT resources. -/
def resource_step (values : DhtResource → String) (a : Action) : DhtResource → String :=
  match a with
  | .set_value res v => fun r => if r = res then v else values r
  | _ => values

/-- Values of the two DHT resources after a sequence of calls. -/
def resources_after (values : DhtResource → String) (tr : List Action) :
    DhtResource → String :=
  tr.foldl resource_step values

/-- Effect of one call on the sensor status lines of the display. -/
def sensor_status_step (status : Int → String) (a : Action) : Int → String :=
  match a with
  | .display_set_sensor_status id v => fun i => if i = id then v else status i
  | _ => status

/-- Sensor status lines of the display after a sequence of calls. -/
def sensor_status_after (status : Int → String) (tr : List Action) : Int → String :=
  tr.foldl sensor_status_step status

/-- Is the call a write to a resource value or to a sensor status line? -/
def is_sensor_publish : Action → Bool
  | .set_value _ _ => true
  | .display_set_sensor_status _ _ => true
  | _ => false

/-- Is the call the 5000 ms wait that ends a pass of a sampling loop? -/
def is_sample_wait : Action → Bool
  | .Thread_wait ms => ms == 5000
  | _ => false

/-- Embedding of `network_disconnect` (line 183): `net->disconnect()`. -/
def network_disconnect : List Action :=
  [ .net_disconnect ]

/-- Effect of one collaborator call on the set of started threads of `tman`:
`start` marks the thread running, `terminate` marks it not running. -/
def thread_step (running : FOTA_THREADS → Bool) (a : Action) : FOTA_THREADS → Bool :=
  match a with
  | .thread_start t => fun u => if u = t then true else running u
  | .thread_terminate t => fun u => if u = t then false else running u
  | _ => running

/-- Thread table after a sequence of collaborator calls. -/
def threads_after (running : FOTA_THREADS → Bool) (tr : List Action) : FOTA_THREADS → Bool :=
  tr.foldl thread_step running

/-! ## Cloud callbacks -/

/-- Embedding of `mbed_client_on_update_authorize` (lines 332-382): the calls
made for `request`, in order.  The `switch` is a chain of comparisons against
the two enumerators, with the `default` branch last. -/
def mbed_client_on_update_authorize (c : Config) (request : Int) : List Action :=
  if request = c.UpdateRequestDownload then
    [ .printf "Firmware download requested\r\n" [],
      .printf "Authorization granted\r\n" [] ]
    ++ stop_sensors
    ++ [ .thread_terminate .FOTA_THREAD_DISPLAY,
         .display_set_downloading,
         .display_refresh,
         .update_authorize request ]
  else if request = c.UpdateRequestInstall then
    [ .printf "Firmware install requested\r\n" [],
      .printf "Disconnecting network...\n" [] ]
    ++ network_disconnect
    ++ [ .display_set_installing,
         .display_refresh,
         .printf "Authorization granted\r\n" [],
         .update_authorize request ]
  else
    [ .printf "ERROR: unknown request\r\n" [],
      .led_set_color .IND_FWUP .IND_COLOR_FAILED,
      .led_post ]

/-- Calls made by `n` successive invocations of the authorize callback with the same request. -/
def authorize_repeated (c : Config) (request : Int) : Nat → List Action
  | 0 => []
  | n + 1 => mbed_client_on_update_authorize c request ++ authorize_repeated c request n

/-- Is the call a reply to an authorization request? -/
def is_reply : Action → Bool
  | .update_authorize _ => true
  | _ => false

/-- Is the call one of the precondition actions of the authorize callback
(terminating a thread of the table, or disconnecting the network)? -/
def is_precondition : Action → Bool
  | .thread_terminate _ => true
  | .net_disconnect => true
  | _ => false

/-- Embedding of the first statement of `mbed_client_on_update_progress`
(line 386): `progress * 100 / total` on `uint32_t`.  The product wraps modulo
`2^32`; the division has no defined result when `total` is zero. -/
def update_percent (progress total : Nat) : Option Nat :=
  if total = 0 then none else some ((progress * 100 % 2 ^ 32) / total)

/-- Embedding of `mbed_client_on_update_progress` (lines 384-408).  The first
argument is the function-local `static uint32_t last_percent`; the result is its
new value together with the calls made, or `none` when the division of line 386
is a division by zero. -/
def mbed_client_on_update_progress (last_percent progress total : Nat) :
    Option (Nat × List Action) :=
  match update_percent progress total with
  | none => none
  | some percent =>
    some (percent,
      [ .display_set_progress "Downloading..." progress total,
        .display_refresh ]
      ++ (if last_percent < percent then
            [ .printf "Downloading: %lu\n" [.num percent] ]
          else [])
      ++ (if progress = total then
            [ .printf "\r\nDownload completed\r\n" [],
              .display_set_progress "Saving..." 0 100,
              .display_set_download_complete,
              .display_refresh ]
          else []))

/-- A sequence of progress callbacks `(progress, total)`, delivered one after
the other, starting with the given value of `last_percent`. -/
def progress_callbacks (last_percent : Nat) : List (Nat × Nat) → Option (Nat × List Action)
  | [] => some (last_percent, [])
  | cb :: rest =>
    match mbed_client_on_update_progress last_percent cb.1 cb.2 with
    | none => none
    | some r =>
      match progress_callbacks r.1 rest with
      | none => none
      | some r2 => some (r2.1, r.2 ++ r2.2)

/-- Is the call the display progress update of line 392? -/
def is_display_progress : Action → Bool
  | .display_set_progress msg _ _ => msg == "Downloading..."
  | _ => false

/-- Is the call the console line of line 397? -/
def is_percent_line : Action → Bool
  | .printf fmt _ => fmt == "Downloading: %lu\n"
  | _ => false

/-- Is the call the completion notification of line 403? -/
def is_completion : Action → Bool
  | .display_set_download_complete => true
  | _ => false

/-- Is the call the "Saving..." progress message of line 402? -/
def is_saving_message : Action → Bool
  | .display_set_progress msg progress total =>
    msg == "Saving..." && progress == 0 && total == 100
  | _ => false

/-- Number of positions of a percent sequence whose value is strictly greater
than the value before it, the value before the first one being `last`. -/
def percent_increases (last : Nat) : List Nat → Nat
  | [] => 0
  | p :: ps => (if last < p then 1 else 0) + percent_increases p ps

/-- Whole-number percent of a callback as the code computes it (0 when `total` is 0). -/
def code_percent (cb : Nat × Nat) : Nat :=
  (update_percent cb.1 cb.2).getD 0

/-! ## Network -/

/-- Embedding of `wifi_security_str2sec` (lines 192-216): the mode, and the
warning printed for an unknown name. -/
def wifi_security_str2sec (security : String) : nsapi_security_t × List Action :=
  if "WPA/WPA2" = security then (.NSAPI_SECURITY_WPA_WPA2, [])
  else if "WPA2" = security then (.NSAPI_SECURITY_WPA2, [])
  else if "WPA" = security then (.NSAPI_SECURITY_WPA, [])
  else if "WEP" = security then (.NSAPI_SECURITY_WEP, [])
  else if "NONE" = security then (.NSAPI_SECURITY_NONE, [])
  else if "OPEN" = security then (.NSAPI_SECURITY_NONE, [])
  else (.NSAPI_SECURITY_NONE,
        [ .printf "warning: unknown wifi security type (%s), assuming NONE\n" [.str security] ])

/-- The part of the persistent key-value store (`keystore.h`, not in the
repository) that `network_connect` reads after `open()`. -/
structure Keystore where
  /-- Answer of `k.exists(key)`. -/
  exists_ : String → Bool
  /-- Answer of `k.get(key)`. -/
  get : String → String

/-- Answers of the network interface to the address queries used in log lines. -/
structure NetInfo where
  mac : String
  ip : String
  netmask : String
  gateway : String

/-- Embedding of the WiFi `network_connect` (lines 228-295).  `ret` is the
answer of `wifi->connect`. -/
def network_connect_wifi (c : Config) (k : Keystore) (net : NetInfo) (ret : Int) :
    Int × List Action :=
  let ssid := if k.exists_ "ssid" then k.get "ssid" else c.MBED_CONF_APP_WIFI_SSID
  let pass := if k.exists_ "pass" then k.get "pass" else c.MBED_CONF_APP_WIFI_PASSWORD
  let security :=
    if k.exists_ "security" then k.get "security" else c.MBED_CONF_APP_WIFI_SECURITY
  let sec := wifi_security_str2sec security
  let pre : List Action :=
    [ .keystore_open,
      .printf (if k.exists_ "ssid" then "Using SSID from keystore.\r\n"
               else "Using default SSID.\r\n") [],
      .printf (if k.exists_ "pass" then "Using pass from keystore.\r\n"
               else "Using default pass.\r\n") [],
      .printf (if k.exists_ "security" then "Using security from keystore.\r\n"
               else "Using default security.\r\n") [],
      .printf "[WIFI] connecting: ssid=%s, mac=%s\n" [.str ssid, .str net.mac] ]
    ++ sec.2
    ++ [ .wifi_connect ssid pass sec.1 ]
  if 0 ≠ ret then
    (ret, pre ++ [ .printf "[WIFI] Failed to connect to: %s (%d)\n" [.str ssid, .num ret] ])
  else
    (0, pre ++
      [ .printf "[WIFI] connected: ssid=%s, mac=%s, ip=%s, netmask=%s, gateway=%s\n"
          [.str ssid, .str net.mac, .str net.ip, .str net.netmask, .str net.gateway] ])

/-- Embedding of the Ethernet `network_connect` (lines 306-326).  `ret` is the
answer of `net->connect`. -/
def network_connect_eth (net : NetInfo) (ret : Int) : Int × List Action :=
  let pre : List Action :=
    [ .printf "[ETH] obtaining IP address: mac=%s\n" [.str net.mac],
      .eth_connect ]
  if 0 ≠ ret then
    (ret, pre ++ [ .printf "ERROR: [ETH] Failed to connect! %d\n" [.num ret] ])
  else
    (ret, pre ++
      [ .printf "[ETH] connected: mac%s, ip=%s, netmask=%s, gateway=%s\n"
          [.str net.mac, .str net.ip, .str net.netmask, .str net.gateway] ])

/-- The `network_connect` selected by `#if MBED_CONF_APP_WIFI`. -/
def network_connect (c : Config) (k : Keystore) (net : NetInfo) (ret : Int) :
    Int × List Action :=
  if c.MBED_CONF_APP_WIFI then network_connect_wifi c k net ret
  else network_connect_eth net ret

/-- Embedding of `network_create` (lines 221-226 and 300-304): the calls made. -/
def network_create (c : Config) : List Action :=
  [ .display_init_network (if c.MBED_CONF_APP_WIFI then "WiFi" else "Eth") ]

/-- The arguments of the first `wifi->connect` call of a trace. -/
def connect_args : List Action → Option (String × String × nsapi_security_t)
  | [] => none
  | .wifi_connect ssid pass sec :: _ => some (ssid, pass, sec)
  | _ :: rest => connect_args rest

/-- Is the call a connection attempt on the network interface? -/
def is_connect_attempt : Action → Bool
  | .wifi_connect _ _ _ => true
  | .eth_connect => true
  | _ => false

/-- Is the call the backoff wait of line 737? -/
def is_backoff : Action → Bool
  | .Thread_wait ms => ms == 2000
  | _ => false

/-! ## Startup -/

/-- Answers of the collaborators that `main` consults during startup. -/
structure Env where
  /-- Answer of `mbed_trace_helper_create_mutex()`. -/
  trace_mutex_created : Bool
  /-- Answer of `sd.init()`. -/
  sd_init_ret : Int
  /-- Whether `network_create()` hands back `NULL`. -/
  net_is_null : Bool
  keystore : Keystore
  netinfo : NetInfo
  /-- Answers of the network driver to the successive connection attempts. -/
  connect_rets : List Int
  fcc_storage_delete_ret : Int
  fcc_init_ret : Int
  fcc_developer_flow_ret : Int
  fcc_verify_ret : Int

/-- How far `main` gets. -/
inductive Outcome where
  /-- The function executed `return ret`. -/
  | returned (ret : Int)
  /-- The connect loop of lines 731-739 used up all supplied answers without a success. -/
  | connecting
  /-- The function entered the final `while (true)` of line 775. -/
  | run_loop
  deriving DecidableEq, Repr

/-- Embedding of `register_mbed_client` (lines 430-442). -/
def register_mbed_client : Int × List Action :=
  (0,
    [ .on_registered,
      .on_unregistered,
      .on_error,
      .on_update_authorize,
      .on_update_progress,
      .display_set_cloud_in_progress,
      .call_register ])

/-- Embedding of `init_fcc` (lines 444-476). -/
def init_fcc (c : Config) (e : Env) : Int × List Action :=
  let wipe : List Action :=
    if c.MBED_CONF_APP_FCC_WIPE then
      [ .fcc_storage_delete ]
      ++ (if e.fcc_storage_delete_ret ≠ c.FCC_STATUS_SUCCESS then
            [ .printf "ERROR: fcc delete failed: %d\n" [.num e.fcc_storage_delete_ret] ]
          else [])
    else []
  if e.fcc_init_ret ≠ c.FCC_STATUS_SUCCESS then
    (e.fcc_init_ret,
      wipe ++ [ .fcc_init, .printf "ERROR: fcc init failed: %d\n" [.num e.fcc_init_ret] ])
  else if e.fcc_developer_flow_ret ≠ c.FCC_STATUS_KCM_FILE_EXIST_ERROR
      ∧ e.fcc_developer_flow_ret ≠ c.FCC_STATUS_SUCCESS then
    (e.fcc_developer_flow_ret,
      wipe ++ [ .fcc_init, .fcc_developer_flow,
                .printf "ERROR: fcc failed to load developer credentials\n" [] ])
  else
    let dev : List Action :=
      [ .fcc_init, .fcc_developer_flow ]
      ++ (if e.fcc_developer_flow_ret = c.FCC_STATUS_KCM_FILE_EXIST_ERROR then
            [ .printf "fcc: developer credentials already exists\n" [] ]
          else [])
    if e.fcc_verify_ret ≠ c.FCC_STATUS_SUCCESS then
      (e.fcc_verify_ret,
        wipe ++ dev ++ [ .fcc_verify_device_configured_4mbed_cloud,
                         .printf "ERROR: fcc device not configured for mbed cloud\n" [] ])
    else
      (0, wipe ++ dev ++ [ .fcc_verify_device_configured_4mbed_cloud ])

/-- Embedding of `platform_init` (lines 481-511). -/
def platform_init (c : Config) (e : Env) : Int × List Action :=
  let disp : List Action :=
    [ .display_init c.MBED_CONF_APP_VERSION,
      .thread_start .FOTA_THREAD_DISPLAY ]
  if c.MBED_CONF_MBED_TRACE_ENABLE ∧ ¬ e.trace_mutex_created then
    (- c.EACCES,
      disp ++ [ .mbed_trace_helper_create_mutex,
                .printf "ERROR: Mutex creation for mbed_trace failed!\n" [] ])
  else
    let trace : List Action :=
      if c.MBED_CONF_MBED_TRACE_ENABLE then
        [ .mbed_trace_helper_create_mutex,
          .mbed_trace_init,
          .mbed_trace_mutex_wait_function_set,
          .mbed_trace_mutex_release_function_set ]
      else []
    if e.sd_init_ret ≠ c.BD_ERROR_OK then
      (e.sd_init_ret,
        disp ++ trace ++ [ .sd_init, .printf "ERROR: sd init failed: %d\n" [.num e.sd_init_ret] ])
    else
      (0, disp ++ trace ++ [ .sd_init, .printf "sd init OK\n" [] ])

/-- One pass through the body of the `do ... while` of lines 731-739 in which
`network_connect` fails with the driver answer `ret`. -/
def failed_attempt (c : Config) (k : Keystore) (net : NetInfo) (ret : Int) : List Action :=
  [ .display_set_network_in_progress ]
  ++ (network_connect c k net ret).2
  ++ [ .display_set_network_fail,
       .printf "WARN: failed to init network, retrying...\n" [],
       .Thread_wait 2000 ]

/-- One pass through the body of the `do ... while` of lines 731-739 in which
`network_connect` succeeds. -/
def successful_attempt (c : Config) (k : Keystore) (net : NetInfo) (ret : Int) : List Action :=
  [ .display_set_network_in_progress ]
  ++ (network_connect c k net ret).2

/-- The failed passes through the loop body, one per non-zero driver answer, in order. -/
def failed_attempts (c : Config) (k : Keystore) (net : NetInfo) : List Int → List Action
  | [] => []
  | r :: rs => failed_attempt c k net r ++ failed_attempts c k net rs

/-- Embedding of the `do ... while (0 != ret)` loop of `main` (lines 731-739).
The list holds the answers of the network driver to the successive attempts;
the result is `none` when the answers run out while the loop is still retrying. -/
def main_connect_loop (c : Config) (k : Keystore) (net : NetInfo) :
    List Int → Option (List Action)
  | [] => none
  | r :: rs =>
    if 0 ≠ (network_connect c k net r).1 then
      (main_connect_loop c k net rs).map (fun t => failed_attempt c k net r ++ t)
    else
      some (successful_attempt c k net r)

/-- Embedding of lines 731-741 of `main`: the connect loop followed by the
report of network success. -/
def main_connect_phase (c : Config) (k : Keystore) (net : NetInfo) (rets : List Int) :
    Option (List Action) :=
  match main_connect_loop c k net rets with
  | none => none
  | some t =>
    some (t ++ [ .display_set_network_success, .printf "init network: OK\n" [] ])

/-- Embedding of `main` (lines 698-786): how far it gets, and the calls made
up to that point. -/
def main (c : Config) (e : Env) : Outcome × List Action :=
  let hdr : List Action :=
    [ .printf "FOTA demo version: %s\n" [.str c.MBED_CONF_APP_VERSION],
      .printf ("     code version: " ++ c.DEVTAG ++ "\n") [],
      .printf "init platform\n" [] ]
  let pi := platform_init c e
  if 0 ≠ pi.1 then
    (.returned pi.1, hdr ++ pi.2)
  else
    let t1 : List Action :=
      hdr ++ pi.2
      ++ [ .printf "init platform: OK\n" [],
           .new_M2MClient,
           .printf "init network\n" [] ]
      ++ network_create c
    if e.net_is_null then
      (.returned (- c.ENODEV),
        t1 ++ [ .printf "ERROR: failed to create network stack\n" [],
                .display_set_network_fail ])
    else
      match main_connect_phase c e.keystore e.netinfo e.connect_rets with
      | none => (.connecting, t1)
      | some tc =>
        let fcc := init_fcc c e
        let t2 : List Action :=
          t1 ++ tc ++ [ .printf "init factory configuration client\n" [] ] ++ fcc.2
        if 0 ≠ fcc.1 then
          (.returned fcc.1,
            t2 ++ [ .printf "ERROR: failed to init factory configuration client: %d\n"
                      [.num fcc.1] ])
        else
          (.run_loop,
            t2
            ++ [ .printf "init factory configuration client: OK\n" [],
                 .printf "start sampling the sensors\n" [] ]
            ++ start_sensors
            ++ [ .printf "init mbed client\n" [] ]
            ++ register_mbed_client.2
            ++ [ .printf "main run loop\n" [],
                 .thread_prompt_start ])

/-- Is the call the start of a sensor thread or the registration request? -/
def is_sensor_start_or_register : Action → Bool
  | .thread_start .FOTA_THREAD_SENSOR_LIGHT => true
  | .thread_start .FOTA_THREAD_DHT => true
  | .call_register => true
  | _ => false

/-- Does the first occurrence of `a` in the trace come before the first occurrence of `b`? -/
def precedes (a b : Action) (tr : List Action) : Bool :=
  decide (a ∈ tr) && decide (b ∈ tr) && decide (tr.indexOf a < tr.indexOf b)

/-- A concrete configuration used for evaluation: request codes 1 and 2, WiFi build. -/
def cfg0 : Config :=
  { UpdateRequestDownload := 1,
    UpdateRequestInstall := 2,
    MBED_CONF_APP_WIFI := true,
    MBED_CONF_APP_WIFI_SSID := "default-ssid",
    MBED_CONF_APP_WIFI_PASSWORD := "default-pass",
    MBED_CONF_APP_WIFI_SECURITY := "WPA2",
    MBED_CONF_APP_VERSION := "1.0",
    DEVTAG := "dev",
    MBED_CONF_APP_FCC_WIPE := false,
    MBED_CONF_MBED_TRACE_ENABLE := true,
    FCC_STATUS_SUCCESS := 0,
    FCC_STATUS_KCM_FILE_EXIST_ERROR := 5,
    BD_ERROR_OK := 0,
    EACCES := 13,
    ENODEV := 19 }

/-- A keystore that holds only the key `ssid`. -/
def ks0 : Keystore :=
  { exists_ := fun key => key == "ssid",
    get := fun key => if key == "ssid" then "home" else "" }

/-- Interface answers used for evaluation. -/
def net0 : NetInfo :=
  { mac := "00:11:22:33:44:55", ip := "10.0.0.2", netmask := "255.255.255.0",
    gateway := "10.0.0.1" }

/-- Collaborator answers of a startup in which every step succeeds at once. -/
def env1 : Env :=
  { trace_mutex_created := true,
    sd_init_ret := 0,
    net_is_null := false,
    keystore := ks0,
    netinfo := net0,
    connect_rets := [0],
    fcc_storage_delete_ret := 0,
    fcc_init_ret := 0,
    fcc_developer_flow_ret := 0,
    fcc_verify_ret := 0 }

/-- Is the call one that brings the controller to life: the start of a sensor
thread, or one of the calls of `register_mbed_client`? -/
def is_controller_start : Action → Bool
  | .thread_start .FOTA_THREAD_SENSOR_LIGHT => true
  | .thread_start .FOTA_THREAD_DHT => true
  | .on_registered => true
  | .on_unregistered => true
  | .on_error => true
  | .on_update_authorize => true
  | .on_update_progress => true
  | .display_set_cloud_in_progress => true
  | .call_register => true
  | _ => false

/-- Does the trace contain no call that brings the controller to life? -/
def no_controller_start (tr : List Action) : Bool :=
  tr.all (fun a => !is_controller_start a)

/-- Collaborator answers of a startup in which `fcc_verify_device_configured_4mbed_cloud`
fails with status 2 after one failed connection attempt. -/
def env2 : Env :=
  { trace_mutex_created := true,
    sd_init_ret := 0,
    net_is_null := false,
    keystore := ks0,
    netinfo := net0,
    connect_rets := [-3004, 0],
    fcc_storage_delete_ret := 0,
    fcc_init_ret := 0,
    fcc_developer_flow_ret := 5,
    fcc_verify_ret := 2 }

/-! ## The authorize callback -/

/-- In `pre ++ a :: post`, with neither call in `pre` and `b` in `post`, `a` precedes `b`. -/
lemma precedes_of_split (a b : Action) (pre post : List Action) (hab : a ≠ b)
    (ha : a ∉ pre) (hb : b ∉ pre) (hbp : b ∈ post) :
    precedes a b (pre ++ a :: post) = true := by
  have i1 : (pre ++ a :: post).indexOf a = pre.length := by
    rw [List.indexOf_append_of_not_mem ha, List.indexOf_cons_self]; rfl
  have i2 : (pre ++ a :: post).indexOf b = pre.length + (post.indexOf b + 1) := by
    rw [List.indexOf_append_of_not_mem hb, List.indexOf_cons_ne _ hab]
  simp only [precedes, i1, i2, Bool.and_eq_true, decide_eq_true_eq]
  refine ⟨⟨?_, ?_⟩, by omega⟩
  · simp
  · simp [hbp]

/-- The relation `precedes` is asymmetric. -/
lemma precedes_asymm (a b : Action) (tr : List Action) (h : precedes a b tr = true) :
    precedes b a tr = false := by
  simp only [precedes, Bool.and_eq_true, decide_eq_true_eq] at h
  simp only [precedes, Bool.and_eq_false_iff, decide_eq_false_iff_not]
  right
  omega

/-- C1: in the calls of `mbed_client_on_update_authorize`, a download request
ends with its reply, which is the only reply; the calls before it contain
`stop_sensors()` with its two `terminate` calls on the sensor threads, each of
which precedes the reply, and after them neither sensor thread is running
whatever the thread table was.  An install request ends with its reply, which
is the only reply; the calls before it contain `network_disconnect` with its
`net->disconnect()`, which precedes the reply.  As the reply is the last call,
no precondition action follows it. -/
theorem authorize_precondition_precedes_reply (c : Config) (request : Int) :
    (request = c.UpdateRequestDownload →
      ∃ pre mid : List Action,
        mbed_client_on_update_authorize c request
          = (pre ++ stop_sensors ++ mid) ++ [.update_authorize request]
        ∧ .thread_terminate .FOTA_THREAD_SENSOR_LIGHT ∈ stop_sensors
        ∧ .thread_terminate .FOTA_THREAD_DHT ∈ stop_sensors
        ∧ (∀ a ∈ pre ++ stop_sensors ++ mid, is_reply a = false)
        ∧ (∀ running : FOTA_THREADS → Bool,
            threads_after running (pre ++ stop_sensors ++ mid) .FOTA_THREAD_SENSOR_LIGHT = false
            ∧ threads_after running (pre ++ stop_sensors ++ mid) .FOTA_THREAD_DHT = false)
        ∧ precedes (.thread_terminate .FOTA_THREAD_SENSOR_LIGHT) (.update_authorize request)
            (mbed_client_on_update_authorize c request) = true
        ∧ precedes (.thread_terminate .FOTA_THREAD_DHT) (.update_authorize request)
            (mbed_client_on_update_authorize c request) = true
        ∧ (mbed_client_on_update_authorize c request).getLast?
            = some (.update_authorize request))
    ∧ (request = c.UpdateRequestInstall →
        c.UpdateRequestDownload ≠ c.UpdateRequestInstall →
        ∃ pre mid : List Action,
          mbed_client_on_update_authorize c request
            = (pre ++ network_disconnect ++ mid) ++ [.update_authorize request]
          ∧ .net_disconnect ∈ network_disconnect
          ∧ (∀ a ∈ pre ++ network_disconnect ++ mid, is_reply a = false)
          ∧ precedes .net_disconnect (.update_authorize request)
              (mbed_client_on_update_authorize c request) = true
          ∧ (mbed_client_on_update_authorize c request).countP
              (fun a => decide (a = .net_disconnect)) = 1
          ∧ (mbed_client_on_update_authorize c request).getLast?
              = some (.update_authorize request)) := by
  constructor
  · intro h
    have htr : mbed_client_on_update_authorize c request
        = [ .printf "Firmware download requested\r\n" [],
            .printf "Authorization granted\r\n" [],
            .printf "stopping all sensors\n" [],
            .thread_terminate .FOTA_THREAD_SENSOR_LIGHT,
            .thread_terminate .FOTA_THREAD_DHT,
            .thread_terminate .FOTA_THREAD_DISPLAY,
            .display_set_downloading,
            .display_refresh,
            .update_authorize request ] := by
      simp [mbed_client_on_update_authorize, h, stop_sensors]
    refine ⟨[ .printf "Firmware download requested\r\n" [],
              .printf "Authorization granted\r\n" [] ],
            [ .thread_terminate .FOTA_THREAD_DISPLAY, .display_set_downloading,
              .display_refresh ], ?_, ?_, ?_, ?_, ?_, ?_, ?_, ?_⟩
    · simp [mbed_client_on_update_authorize, h]
    · simp [stop_sensors]
    · simp [stop_sensors]
    · simp [stop_sensors, is_reply]
    · intro running
      simp [threads_after, thread_step, stop_sensors]
    · rw [htr]
      exact precedes_of_split _ _
        [ .printf "Firmware download requested\r\n" [],
          .printf "Authorization granted\r\n" [],
          .printf "stopping all sensors\n" [] ]
        [ .thread_terminate .FOTA_THREAD_DHT,
          .thread_terminate .FOTA_THREAD_DISPLAY,
          .display_set_downloading,
          .display_refresh,
          .update_authorize request ] (by simp) (by simp) (by simp) (by simp)
    · rw [htr]
      exact precedes_of_split _ _
        [ .printf "Firmware download requested\r\n" [],
          .printf "Authorization granted\r\n" [],
          .printf "stopping all sensors\n" [],
          .thread_terminate .FOTA_THREAD_SENSOR_LIGHT ]
        [ .thread_terminate .FOTA_THREAD_DISPLAY,
          .display_set_downloading,
          .display_refresh,
          .update_authorize request ] (by simp) (by simp) (by simp) (by simp)
    · rw [htr]
      rfl
  · intro h hd
    have hne : ¬ c.UpdateRequestInstall = c.UpdateRequestDownload := fun e => hd e.symm
    have htr : mbed_client_on_update_authorize c request
        = [ .printf "Firmware install requested\r\n" [],
            .printf "Disconnecting network...\n" [],
            .net_disconnect,
            .display_set_installing,
            .display_refresh,
            .printf "Authorization granted\r\n" [],
            .update_authorize request ] := by
      simp [mbed_client_on_update_authorize, h, hne, network_disconnect]
    refine ⟨[ .printf "Firmware install requested\r\n" [],
              .printf "Disconnecting network...\n" [] ],
            [ .display_set_installing, .display_refresh,
              .printf "Authorization granted\r\n" [] ], ?_, ?_, ?_, ?_, ?_, ?_⟩
    · simp [mbed_client_on_update_authorize, h, hne]
    · simp [network_disconnect]
    · simp [network_disconnect, is_reply]
    · rw [htr]
      exact precedes_of_split _ _
        [ .printf "Firmware install requested\r\n" [],
          .printf "Disconnecting network...\n" [] ]
        [ .display_set_installing,
          .display_refresh,
          .printf "Authorization granted\r\n" [],
          .update_authorize request ] (by simp) (by simp) (by simp) (by simp)
    · rw [htr]
      simp [List.countP_cons]
    · rw [htr]
      rfl

/-- Witness for C1 at the request codes 1 (download) and 2 (install). -/
theorem authorize_precondition_precedes_reply_witness :
    (∃ pre mid : List Action,
        mbed_client_on_update_authorize cfg0 1
          = (pre ++ stop_sensors ++ mid) ++ [.update_authorize 1]
        ∧ .thread_terminate .FOTA_THREAD_SENSOR_LIGHT ∈ stop_sensors
        ∧ .thread_terminate .FOTA_THREAD_DHT ∈ stop_sensors
        ∧ (∀ a ∈ pre ++ stop_sensors ++ mid, is_reply a = false)
        ∧ (∀ running : FOTA_THREADS → Bool,
            threads_after running (pre ++ stop_sensors ++ mid) .FOTA_THREAD_SENSOR_LIGHT = false
            ∧ threads_after running (pre ++ stop_sensors ++ mid) .FOTA_THREAD_DHT = false)
        ∧ precedes (.thread_terminate .FOTA_THREAD_SENSOR_LIGHT) (.update_authorize 1)
            (mbed_client_on_update_authorize cfg0 1) = true
        ∧ precedes (.thread_terminate .FOTA_THREAD_DHT) (.update_authorize 1)
            (mbed_client_on_update_authorize cfg0 1) = true
        ∧ (mbed_client_on_update_authorize cfg0 1).getLast? = some (.update_authorize 1))
    ∧ (∃ pre mid : List Action,
        mbed_client_on_update_authorize cfg0 2
          = (pre ++ network_disconnect ++ mid) ++ [.update_authorize 2]
        ∧ .net_disconnect ∈ network_disconnect
        ∧ (∀ a ∈ pre ++ network_disconnect ++ mid, is_reply a = false)
        ∧ precedes .net_disconnect (.update_authorize 2)
            (mbed_client_on_update_authorize cfg0 2) = true
        ∧ (mbed_client_on_update_authorize cfg0 2).countP
            (fun a => decide (a = .net_disconnect)) = 1
        ∧ (mbed_client_on_update_authorize cfg0 2).getLast? = some (.update_authorize 2)) :=
  ⟨(authorize_precondition_precedes_reply cfg0 1).1 rfl,
   (authorize_precondition_precedes_reply cfg0 2).2 rfl (by decide)⟩

/-- Every invocation with a recognised request issues exactly one reply. -/
lemma authorize_reply_count (c : Config) (request : Int)
    (h : request = c.UpdateRequestDownload ∨ request = c.UpdateRequestInstall) :
    (mbed_client_on_update_authorize c request).countP is_reply = 1 := by
  unfold mbed_client_on_update_authorize
  by_cases h1 : request = c.UpdateRequestDownload
  · simp [h1, stop_sensors, is_reply]
  · have h2 : request = c.UpdateRequestInstall := h.resolve_left h1
    rw [if_neg h1, if_pos h2]
    simp [network_disconnect, is_reply]

/-- C2, as stated, fails: two invocations with the download request issue two replies, not one. -/
theorem authorize_twice_replies_twice :
    (authorize_repeated cfg0 cfg0.UpdateRequestDownload 2).countP is_reply = 2
    ∧ (authorize_repeated cfg0 cfg0.UpdateRequestDownload 2).countP is_reply ≠ 1 := by
  decide

/-- C2, amended: every invocation with a recognised request issues exactly one
reply, so `n` invocations with the same request issue `n` replies in total. -/
theorem authorize_replies_once_per_invocation (c : Config) (request : Int) (n : Nat)
    (h : request = c.UpdateRequestDownload ∨ request = c.UpdateRequestInstall) :
    (mbed_client_on_update_authorize c request).countP is_reply = 1
    ∧ (authorize_repeated c request n).countP is_reply = n := by
  refine ⟨authorize_reply_count c request h, ?_⟩
  induction n with
  | zero => simp [authorize_repeated]
  | succ k ih =>
    simp only [authorize_repeated, List.countP_append, ih, authorize_reply_count c request h]
    omega

/-- Witness for the amended C2: three invocations with the install request. -/
theorem authorize_replies_once_per_invocation_witness :
    (mbed_client_on_update_authorize cfg0 2).countP is_reply = 1
    ∧ (authorize_repeated cfg0 2 3).countP is_reply = 3 :=
  authorize_replies_once_per_invocation cfg0 2 3 (Or.inr rfl)

/-- C3: for a request that is neither the download nor the install code, the
callback makes exactly three calls: the error line, `led_set_color(IND_FWUP,
IND_COLOR_FAILED)` and `led_post()`.  It issues no reply, terminates no thread
and does not disconnect the network. -/
theorem authorize_unknown_request (c : Config) (request : Int)
    (h1 : request ≠ c.UpdateRequestDownload) (h2 : request ≠ c.UpdateRequestInstall) :
    mbed_client_on_update_authorize c request
      = [ .printf "ERROR: unknown request\r\n" [],
          .led_set_color .IND_FWUP .IND_COLOR_FAILED,
          .led_post ]
    ∧ (mbed_client_on_update_authorize c request).countP is_reply = 0
    ∧ (∀ a ∈ mbed_client_on_update_authorize c request, is_precondition a = false)
    ∧ (∀ a ∈ stop_sensors ++ network_disconnect,
        a ∉ mbed_client_on_update_authorize c request) := by
  have e : mbed_client_on_update_authorize c request
      = [ .printf "ERROR: unknown request\r\n" [],
          .led_set_color .IND_FWUP .IND_COLOR_FAILED,
          .led_post ] := by
    simp [mbed_client_on_update_authorize, h1, h2]
  rw [e]
  refine ⟨rfl, ?_, ?_, ?_⟩
  · simp [is_reply]
  · simp [is_precondition]
  · simp [stop_sensors, network_disconnect]

/-- Witness for C3: request 99 with the request codes 1 and 2. -/
theorem authorize_unknown_request_witness :
    mbed_client_on_update_authorize cfg0 99
      = [ .printf "ERROR: unknown request\r\n" [],
          .led_set_color .IND_FWUP .IND_COLOR_FAILED,
          .led_post ]
    ∧ (mbed_client_on_update_authorize cfg0 99).countP is_reply = 0
    ∧ (∀ a ∈ mbed_client_on_update_authorize cfg0 99, is_precondition a = false)
    ∧ (∀ a ∈ stop_sensors ++ network_disconnect,
        a ∉ mbed_client_on_update_authorize cfg0 99) :=
  authorize_unknown_request cfg0 99 (by decide) (by decide)

/-! ## The progress callback -/

/-- For a non-zero total, line 386 yields the value named `code_percent`. -/
lemma update_percent_pos (p t : Nat) (ht : 0 < t) :
    update_percent p t = some (code_percent (p, t)) := by
  have ht0 : t ≠ 0 := Nat.pos_iff_ne_zero.mp ht
  simp [code_percent, update_percent, ht0]

/-- One callback with a non-zero total: the result exists, and each kind of
call occurs in it as often as the two guards of lines 396 and 400 say. -/
lemma progress_step (lp p t : Nat) (ht : 0 < t) :
    ∃ tr : List Action,
      mbed_client_on_update_progress lp p t = some (code_percent (p, t), tr)
      ∧ tr.countP is_display_progress = 1
      ∧ tr.countP is_percent_line = (if lp < code_percent (p, t) then 1 else 0)
      ∧ tr.countP is_completion = (if p = t then 1 else 0)
      ∧ tr.countP is_saving_message = (if p = t then 1 else 0) := by
  have hup := update_percent_pos p t ht
  generalize code_percent (p, t) = q at hup ⊢
  refine ⟨_, by simp only [mbed_client_on_update_progress, hup]; rfl, ?_, ?_, ?_, ?_⟩
  all_goals
    by_cases h1 : lp < q <;> by_cases h2 : p = t <;>
      simp [h1, h2, List.countP_cons, is_display_progress, is_percent_line, is_completion,
        is_saving_message]

/-- A sequence of callbacks with non-zero totals: the run completes, and the
counts of the four kinds of call add up over the callbacks. -/
lemma progress_callbacks_counts (cbs : List (Nat × Nat)) :
    ∀ lp : Nat, (∀ cb ∈ cbs, 0 < cb.2) →
      ∃ r : Nat × List Action,
        progress_callbacks lp cbs = some r
        ∧ r.2.countP is_display_progress = cbs.length
        ∧ r.2.countP is_percent_line = percent_increases lp (cbs.map code_percent)
        ∧ r.2.countP is_completion = cbs.countP (fun cb => decide (cb.1 = cb.2))
        ∧ r.2.countP is_saving_message = cbs.countP (fun cb => decide (cb.1 = cb.2)) := by
  induction cbs with
  | nil =>
    intro lp _
    exact ⟨(lp, []), rfl, rfl, rfl, rfl, rfl⟩
  | cons cb rest ih =>
    intro lp hpos
    obtain ⟨p, t⟩ := cb
    have ht : 0 < t := hpos (p, t) (List.mem_cons_self _ _)
    obtain ⟨tr, hstep, c1, c2, c3, c4⟩ := progress_step lp p t ht
    obtain ⟨r2, hrest, d1, d2, d3, d4⟩ :=
      ih (code_percent (p, t)) (fun cb hcb => hpos cb (List.mem_cons_of_mem _ hcb))
    refine ⟨(r2.1, tr ++ r2.2), ?_, ?_, ?_, ?_, ?_⟩
    · simp only [progress_callbacks, hstep, hrest]
    · simp only [List.countP_append, c1, d1, List.length_cons]; omega
    · simp only [List.countP_append, c2, d2, List.map_cons, percent_increases]
    · simp only [List.countP_append, c3, d3, List.countP_cons]
      by_cases h : p = t <;> simp [h]; omega
    · simp only [List.countP_append, c4, d4, List.countP_cons]
      by_cases h : p = t <;> simp [h]; omega

/-- Below the wrap-around of the product, line 386 computes the floor of
`progress * 100 / total`, which is at most 100 when `progress ≤ total`. -/
lemma update_percent_below_wrap (p t : Nat) (ht : 0 < t) (hpt : p ≤ t)
    (hw : p * 100 < 2 ^ 32) :
    update_percent p t = some (p * 100 / t) ∧ p * 100 / t ≤ 100 := by
  have ht0 : t ≠ 0 := Nat.pos_iff_ne_zero.mp ht
  constructor
  · simp only [update_percent, ht0, if_false, Nat.mod_eq_of_lt hw]
  · exact Nat.div_le_of_le_mul (by nlinarith)

/-- C4, evaluated at `progress = total = 42949673`: both values fit in 32 bits
and `progress ≤ total`, the floor of `progress * 100 / total` is 100, and the
code computes 0, because `progress * 100 = 2^32 + 4` wraps to 4.  The callback
then prints no percent line although the download is complete. -/
theorem percent_wraps_on_large_transfer :
    42949673 < 2 ^ 32
    ∧ 42949673 * 100 / 42949673 = 100
    ∧ update_percent 42949673 42949673 = some 0
    ∧ (mbed_client_on_update_progress 0 42949673 42949673).map (fun r => r.1) = some 0 := by
  decide

/-- C5, as stated, fails: in the sequence (50,100), (100,100), (100,100) the
completion notification and the "Saving..." message are each emitted twice. -/
theorem completion_notified_twice :
    (progress_callbacks 0 [(50, 100), (100, 100), (100, 100)]).map
        (fun r => (r.2.countP is_completion, r.2.countP is_saving_message)) = some (2, 2)
    ∧ (mbed_client_on_update_progress 100 100 100).map
        (fun r => r.2.countP is_completion) = some 1 := by
  decide

/-- C5, amended: over a sequence of progress callbacks with non-zero totals the
run completes, and the completion notification, together with the "Saving..."
message, is emitted once at every callback with `progress == total` and at no
other callback, whatever `last_percent` is; their number is the number of such
callbacks. -/
theorem completion_notified_at_every_full_callback (lp : Nat) (cbs : List (Nat × Nat))
    (h : ∀ cb ∈ cbs, 0 < cb.2) :
    (∃ r : Nat × List Action,
      progress_callbacks lp cbs = some r
      ∧ r.2.countP is_completion = cbs.countP (fun cb => decide (cb.1 = cb.2))
      ∧ r.2.countP is_saving_message = cbs.countP (fun cb => decide (cb.1 = cb.2)))
    ∧ (∀ cb ∈ cbs, ∀ last : Nat, ∃ r : Nat × List Action,
        mbed_client_on_update_progress last cb.1 cb.2 = some r
        ∧ r.2.countP is_completion = (if cb.1 = cb.2 then 1 else 0)
        ∧ r.2.countP is_saving_message = (if cb.1 = cb.2 then 1 else 0)) := by
  constructor
  · obtain ⟨r, hr, _, _, c3, c4⟩ := progress_callbacks_counts cbs lp h
    exact ⟨r, hr, c3, c4⟩
  · intro cb hcb last
    obtain ⟨tr, hstep, _, _, c3, c4⟩ := progress_step last cb.1 cb.2 (h cb hcb)
    exact ⟨_, hstep, c3, c4⟩

/-- Witness for the amended C5 on the sequence (50,100), (100,100), (100,100). -/
theorem completion_notified_at_every_full_callback_witness :
    (∃ r : Nat × List Action,
      progress_callbacks 0 [(50, 100), (100, 100), (100, 100)] = some r
      ∧ r.2.countP is_completion
          = [(50, 100), (100, 100), (100, 100)].countP (fun cb => decide (cb.1 = cb.2))
      ∧ r.2.countP is_saving_message
          = [(50, 100), (100, 100), (100, 100)].countP (fun cb => decide (cb.1 = cb.2)))
    ∧ (∀ cb ∈ [(50, 100), (100, 100), (100, 100)], ∀ last : Nat, ∃ r : Nat × List Action,
        mbed_client_on_update_progress last cb.1 cb.2 = some r
        ∧ r.2.countP is_completion = (if cb.1 = cb.2 then 1 else 0)
        ∧ r.2.countP is_saving_message = (if cb.1 = cb.2 then 1 else 0)) :=
  completion_notified_at_every_full_callback 0 [(50, 100), (100, 100), (100, 100)]
    (by decide)

/-- C7, evaluated at `total = 0`: line 386 divides by `total` before any test,
so for every `last_percent` and every `progress` the callback has no result
and makes no call. -/
theorem progress_zero_total_divides (last_percent progress : Nat) :
    update_percent progress 0 = none
    ∧ mbed_client_on_update_progress last_percent progress 0 = none := by
  constructor
  · rfl
  · rfl

/-! ## Network connection -/

/-- The conversion of the security name prints nothing or one warning line. -/
lemma wifi_security_str2sec_log (s : String) :
    (wifi_security_str2sec s).2 = []
    ∨ (wifi_security_str2sec s).2
        = [ .printf "warning: unknown wifi security type (%s), assuming NONE\n" [.str s] ] := by
  unfold wifi_security_str2sec
  split_ifs <;> simp

/-- C8: the WiFi `network_connect` calls `wifi->connect` exactly once, and its
three arguments are chosen key by key: the keystore value when the key exists,
the compiled-in default otherwise, the security name being converted by
`wifi_security_str2sec`.  Two keystores that agree on one key yield the same
argument for that key, whatever they hold for the other two keys. -/
theorem wifi_credential_precedence (c : Config) (k : Keystore) (net : NetInfo) (ret : Int) :
    connect_args (network_connect_wifi c k net ret).2
      = some (if k.exists_ "ssid" then k.get "ssid" else c.MBED_CONF_APP_WIFI_SSID,
              if k.exists_ "pass" then k.get "pass" else c.MBED_CONF_APP_WIFI_PASSWORD,
              (wifi_security_str2sec
                (if k.exists_ "security" then k.get "security"
                 else c.MBED_CONF_APP_WIFI_SECURITY)).1)
    ∧ (network_connect_wifi c k net ret).2.countP is_connect_attempt = 1
    ∧ (∀ k2 : Keystore, ∀ key ∈ ["ssid", "pass", "security"],
        k.exists_ key = k2.exists_ key → k.get key = k2.get key →
        (key = "ssid" →
          (connect_args (network_connect_wifi c k net ret).2).map (fun a => a.1)
            = (connect_args (network_connect_wifi c k2 net ret).2).map (fun a => a.1))
        ∧ (key = "pass" →
          (connect_args (network_connect_wifi c k net ret).2).map (fun a => a.2.1)
            = (connect_args (network_connect_wifi c k2 net ret).2).map (fun a => a.2.1))
        ∧ (key = "security" →
          (connect_args (network_connect_wifi c k net ret).2).map (fun a => a.2.2)
            = (connect_args (network_connect_wifi c k2 net ret).2).map (fun a => a.2.2))) := by
  have args : ∀ k : Keystore, connect_args (network_connect_wifi c k net ret).2
      = some (if k.exists_ "ssid" then k.get "ssid" else c.MBED_CONF_APP_WIFI_SSID,
              if k.exists_ "pass" then k.get "pass" else c.MBED_CONF_APP_WIFI_PASSWORD,
              (wifi_security_str2sec
                (if k.exists_ "security" then k.get "security"
                 else c.MBED_CONF_APP_WIFI_SECURITY)).1) := by
    intro k
    unfold network_connect_wifi
    rcases wifi_security_str2sec_log
      (if k.exists_ "security" then k.get "security" else c.MBED_CONF_APP_WIFI_SECURITY)
      with h | h <;> by_cases hr : 0 = ret <;> simp [h, hr, connect_args]
  refine ⟨args k, ?_, ?_⟩
  · unfold network_connect_wifi
    rcases wifi_security_str2sec_log
      (if k.exists_ "security" then k.get "security" else c.MBED_CONF_APP_WIFI_SECURITY)
      with h | h <;> by_cases hr : 0 = ret <;> simp [h, hr, is_connect_attempt]
  · intro k2 key _ he hg
    rw [args k, args k2]
    refine ⟨?_, ?_, ?_⟩ <;> intro hk <;> subst hk <;> simp [he, hg]

/-- Witness for C8: a keystore holding only `ssid`, and a second one that also
holds `pass`; the network name passed to `wifi->connect` is the same. -/
theorem wifi_credential_precedence_witness :
    connect_args (network_connect_wifi cfg0 ks0 net0 0).2
      = some ("home", "default-pass", .NSAPI_SECURITY_WPA2)
    ∧ (connect_args (network_connect_wifi cfg0 ks0 net0 0).2).map (fun a => a.1)
      = (connect_args (network_connect_wifi cfg0
          { exists_ := fun key => key == "ssid" || key == "pass",
            get := fun key => if key == "ssid" then "home" else "secret" } net0 0).2).map
          (fun a => a.1) :=
  ⟨(wifi_credential_precedence cfg0 ks0 net0 0).1,
   ((wifi_credential_precedence cfg0 ks0 net0 0).2.2
      { exists_ := fun key => key == "ssid" || key == "pass",
        get := fun key => if key == "ssid" then "home" else "secret" }
      "ssid" (by decide) (by decide) (by decide)).1 rfl⟩

/-- The status that `network_connect` hands back is the answer of the driver. -/
lemma network_connect_ret (c : Config) (k : Keystore) (net : NetInfo) (r : Int) :
    (network_connect c k net r).1 = r := by
  unfold network_connect network_connect_wifi network_connect_eth
  by_cases hw : c.MBED_CONF_APP_WIFI = true <;> by_cases hr : 0 = r <;> simp [hw, hr]

/-- One call of `network_connect` makes one connection attempt and never waits. -/
lemma network_connect_counts (c : Config) (k : Keystore) (net : NetInfo) (r : Int) :
    (network_connect c k net r).2.countP is_connect_attempt = 1
    ∧ (network_connect c k net r).2.countP is_backoff = 0 := by
  unfold network_connect network_connect_wifi network_connect_eth
  rcases wifi_security_str2sec_log
    (if k.exists_ "security" then k.get "security" else c.MBED_CONF_APP_WIFI_SECURITY)
    with h | h <;> by_cases hw : c.MBED_CONF_APP_WIFI = true <;> by_cases hr : 0 = r <;>
    simp [h, hw, hr, is_connect_attempt, is_backoff]

/-- A failed pass makes one connection attempt and one backoff wait. -/
lemma failed_attempt_counts (c : Config) (k : Keystore) (net : NetInfo) (r : Int) :
    (failed_attempt c k net r).countP is_connect_attempt = 1
    ∧ (failed_attempt c k net r).countP is_backoff = 1 := by
  obtain ⟨h1, h2⟩ := network_connect_counts c k net r
  simp [failed_attempt, List.countP_append, List.countP_cons, h1, h2, is_connect_attempt,
    is_backoff]

/-- The successful pass makes one connection attempt and no backoff wait. -/
lemma successful_attempt_counts (c : Config) (k : Keystore) (net : NetInfo) (r : Int) :
    (successful_attempt c k net r).countP is_connect_attempt = 1
    ∧ (successful_attempt c k net r).countP is_backoff = 0 := by
  obtain ⟨h1, h2⟩ := network_connect_counts c k net r
  simp [successful_attempt, List.countP_append, List.countP_cons, h1, h2, is_connect_attempt,
    is_backoff]

/-- A run of failed passes makes as many attempts and as many waits as it has passes. -/
lemma failed_attempts_counts (c : Config) (k : Keystore) (net : NetInfo) (rs : List Int) :
    (failed_attempts c k net rs).countP is_connect_attempt = rs.length
    ∧ (failed_attempts c k net rs).countP is_backoff = rs.length := by
  induction rs with
  | nil => exact ⟨rfl, rfl⟩
  | cons r rs ih =>
    obtain ⟨h1, h2⟩ := failed_attempt_counts c k net r
    simp only [failed_attempts, List.countP_append, h1, h2, ih.1, ih.2, List.length_cons]
    omega

/-- While the driver answers are all non-zero the loop goes on: it has not
exited when the answers run out. -/
lemma main_connect_loop_all_failed (c : Config) (k : Keystore) (net : NetInfo)
    (fails : List Int) (hf : ∀ r ∈ fails, r ≠ 0) :
    main_connect_loop c k net fails = none := by
  induction fails with
  | nil => rfl
  | cons r rs ih =>
    have hr : 0 ≠ r := fun e => hf r (List.mem_cons_self _ _) e.symm
    have ih2 := ih (fun x hx => hf x (List.mem_cons_of_mem _ hx))
    simp only [main_connect_loop, network_connect_ret, ih2, hr, ne_eq, not_false_eq_true,
      if_true, Option.map_none']

/-- After `fails` the loop exits at the first zero answer, having made the
failed passes in order and then the successful one. -/
lemma main_connect_loop_trace (c : Config) (k : Keystore) (net : NetInfo)
    (fails rest : List Int) (hf : ∀ r ∈ fails, r ≠ 0) :
    main_connect_loop c k net (fails ++ 0 :: rest)
      = some (failed_attempts c k net fails ++ successful_attempt c k net 0) := by
  induction fails with
  | nil =>
    simp [main_connect_loop, network_connect_ret, failed_attempts]
  | cons r rs ih =>
    have hr : 0 ≠ r := fun e => hf r (List.mem_cons_self _ _) e.symm
    have ih2 := ih (fun x hx => hf x (List.mem_cons_of_mem _ hx))
    rw [List.cons_append, main_connect_loop, ih2]
    simp only [network_connect_ret, hr, ne_eq, not_false_eq_true, if_true, Option.map_some',
      failed_attempts, List.append_assoc]

/-- C9: when the network driver answers non-zero `n` times (`fails`) and then
zero, lines 731-741 of `main` run to the end; the calls are the `n` failed
passes in order, each ending with the 2000 ms wait, then the successful pass,
then the report of network success.  There are `n + 1` connection attempts and
`n` waits.  For no `n` does the loop stop on failures alone. -/
theorem connect_retry_until_success (c : Config) (k : Keystore) (net : NetInfo)
    (fails rest : List Int) (hf : ∀ r ∈ fails, r ≠ 0) :
    (∃ t : List Action,
      main_connect_phase c k net (fails ++ 0 :: rest) = some t
      ∧ t = failed_attempts c k net fails ++ successful_attempt c k net 0
              ++ [ .display_set_network_success, .printf "init network: OK\n" [] ]
      ∧ t.countP is_connect_attempt = fails.length + 1
      ∧ t.countP is_backoff = fails.length)
    ∧ (∀ r : Int, ∃ body : List Action,
        failed_attempt c k net r = body ++ [ .Thread_wait 2000 ]
        ∧ body.countP is_connect_attempt = 1 ∧ body.countP is_backoff = 0)
    ∧ main_connect_phase c k net fails = none := by
  refine ⟨?_, ?_, ?_⟩
  · refine ⟨_, by simp only [main_connect_phase, main_connect_loop_trace c k net fails rest hf],
      rfl, ?_, ?_⟩
    · obtain ⟨h1, _⟩ := failed_attempts_counts c k net fails
      obtain ⟨h2, _⟩ := successful_attempt_counts c k net 0
      simp [List.countP_append, List.countP_cons, h1, h2, is_connect_attempt]
    · obtain ⟨_, h1⟩ := failed_attempts_counts c k net fails
      obtain ⟨_, h2⟩ := successful_attempt_counts c k net 0
      simp [List.countP_append, List.countP_cons, h1, h2, is_backoff]
  · intro r
    obtain ⟨h1, h2⟩ := network_connect_counts c k net r
    refine ⟨[ .display_set_network_in_progress ] ++ (network_connect c k net r).2
              ++ [ .display_set_network_fail,
                   .printf "WARN: failed to init network, retrying...\n" [] ], ?_, ?_, ?_⟩
    · simp [failed_attempt]
    · simp [List.countP_append, List.countP_cons, h1, is_connect_attempt]
    · simp [List.countP_append, List.countP_cons, h2, is_backoff]
  · simp only [main_connect_phase, main_connect_loop_all_failed c k net fails hf]

/-- Witness for C9: two failures, then success on the third attempt. -/
theorem connect_retry_until_success_witness :
    (∃ t : List Action,
      main_connect_phase cfg0 ks0 net0 ([-3004, -3004] ++ 0 :: []) = some t
      ∧ t = failed_attempts cfg0 ks0 net0 [-3004, -3004] ++ successful_attempt cfg0 ks0 net0 0
              ++ [ .display_set_network_success, .printf "init network: OK\n" [] ]
      ∧ t.countP is_connect_attempt = [-3004, -3004].length + 1
      ∧ t.countP is_backoff = [-3004, -3004].length)
    ∧ (∀ r : Int, ∃ body : List Action,
        failed_attempt cfg0 ks0 net0 r = body ++ [ .Thread_wait 2000 ]
        ∧ body.countP is_connect_attempt = 1 ∧ body.countP is_backoff = 0)
    ∧ main_connect_phase cfg0 ks0 net0 [-3004, -3004] = none :=
  connect_retry_until_success cfg0 ks0 net0 [-3004, -3004] [] (by decide)

/-! ## Startup order -/

/-- `platform_init` starts no sensor thread and does not register. -/
lemma platform_init_quiet (c : Config) (e : Env) :
    ∀ a ∈ (platform_init c e).2, is_sensor_start_or_register a = false := by
  unfold platform_init
  split_ifs <;> simp [is_sensor_start_or_register]

/-- `init_fcc` starts no sensor thread and does not register. -/
lemma init_fcc_quiet (c : Config) (e : Env) :
    ∀ a ∈ (init_fcc c e).2, is_sensor_start_or_register a = false := by
  unfold init_fcc
  split_ifs <;> simp [is_sensor_start_or_register]

/-- `network_connect` starts no sensor thread and does not register. -/
lemma network_connect_quiet (c : Config) (k : Keystore) (net : NetInfo) (r : Int) :
    ∀ a ∈ (network_connect c k net r).2, is_sensor_start_or_register a = false := by
  unfold network_connect network_connect_wifi network_connect_eth
  rcases wifi_security_str2sec_log
    (if k.exists_ "security" then k.get "security" else c.MBED_CONF_APP_WIFI_SECURITY)
    with h | h <;> by_cases hw : c.MBED_CONF_APP_WIFI = true <;> by_cases hr : 0 = r <;>
    simp [h, hw, hr, is_sensor_start_or_register]

/-- The connect loop starts no sensor thread and does not register. -/
lemma main_connect_loop_quiet (c : Config) (k : Keystore) (net : NetInfo) (rets : List Int) :
    ∀ t : List Action, main_connect_loop c k net rets = some t →
      ∀ a ∈ t, is_sensor_start_or_register a = false := by
  induction rets with
  | nil =>
    intro t ht
    simp [main_connect_loop] at ht
  | cons r rs ih =>
    intro t ht a ha
    have hq := network_connect_quiet c k net r
    rw [main_connect_loop] at ht
    by_cases hr : 0 ≠ (network_connect c k net r).1
    · rw [if_pos hr] at ht
      cases hrest : main_connect_loop c k net rs with
      | none => simp [hrest] at ht
      | some t2 =>
        simp only [hrest, Option.map_some', Option.some.injEq] at ht
        subst ht
        simp only [failed_attempt, List.mem_append, List.mem_cons, List.mem_singleton,
          List.not_mem_nil, or_false] at ha
        rcases ha with ((ha | ha) | ha) | ha
        · subst ha; rfl
        · exact hq a ha
        · rcases ha with ha | ha | ha <;> subst ha <;> rfl
        · exact ih t2 hrest a ha
    · rw [if_neg hr] at ht
      simp only [Option.some.injEq] at ht
      subst ht
      simp only [successful_attempt, List.mem_append, List.mem_singleton] at ha
      rcases ha with ha | ha
      · subst ha; rfl
      · exact hq a ha

/-- Shape of the calls of `main` when it reaches its run loop: a prefix that
reports network success, starts no sensor thread and does not register, then
the sensor start, then the registration. -/
lemma main_run_loop_trace (c : Config) (e : Env) (h : (main c e).1 = .run_loop) :
    ∃ pre : List Action,
      (main c e).2
        = pre ++ start_sensors ++ [ .printf "init mbed client\n" [] ]
            ++ register_mbed_client.2
            ++ [ .printf "main run loop\n" [], .thread_prompt_start ]
      ∧ .display_set_network_success ∈ pre
      ∧ (∀ a ∈ pre, is_sensor_start_or_register a = false) := by
  by_cases hpi : 0 ≠ (platform_init c e).1
  · simp [main, hpi] at h
  · by_cases hn : e.net_is_null = true
    · simp [main, hpi, hn] at h
    · cases hc : main_connect_phase c e.keystore e.netinfo e.connect_rets with
      | none => simp [main, hpi, hn, hc] at h
      | some tc =>
        by_cases hf : 0 ≠ (init_fcc c e).1
        · simp [main, hpi, hn, hc, hf] at h
        · have hloop : ∃ tl, main_connect_loop c e.keystore e.netinfo e.connect_rets = some tl
              ∧ tc = tl ++ [ .display_set_network_success, .printf "init network: OK\n" [] ] := by
            unfold main_connect_phase at hc
            cases hl : main_connect_loop c e.keystore e.netinfo e.connect_rets with
            | none => simp [hl] at hc
            | some tl =>
              simp only [hl, Option.some.injEq] at hc
              exact ⟨tl, rfl, hc.symm⟩
          obtain ⟨tl, hl, htc⟩ := hloop
          have hq1 := platform_init_quiet c e
          have hq2 := init_fcc_quiet c e
          have hq3 := main_connect_loop_quiet c e.keystore e.netinfo e.connect_rets tl hl
          refine ⟨[ .printf "FOTA demo version: %s\n" [.str c.MBED_CONF_APP_VERSION],
                    .printf ("     code version: " ++ c.DEVTAG ++ "\n") [],
                    .printf "init platform\n" [] ]
                  ++ (platform_init c e).2
                  ++ [ .printf "init platform: OK\n" [],
                       .new_M2MClient,
                       .printf "init network\n" [] ]
                  ++ network_create c ++ tc
                  ++ [ .printf "init factory configuration client\n" [] ]
                  ++ (init_fcc c e).2
                  ++ [ .printf "init factory configuration client: OK\n" [],
                       .printf "start sampling the sensors\n" [] ], ?_, ?_, ?_⟩
          · simp [main, hpi, hn, hc, hf]
          · simp [htc]
          · intro a ha
            simp only [htc, network_create, List.mem_append, List.mem_cons, List.mem_singleton,
              List.not_mem_nil, or_false] at ha
            rcases ha with ((((((ha | ha) | ha) | ha) | ha) | ha) | ha) | ha
            · rcases ha with ha | ha | ha <;> subst ha <;> rfl
            · exact hq1 a ha
            · rcases ha with ha | ha | ha <;> subst ha <;> rfl
            · subst ha; rfl
            · rcases ha with ha | ha
              · exact hq3 a ha
              · rcases ha with ha | ha <;> subst ha <;> rfl
            · subst ha; rfl
            · exact hq2 a ha
            · rcases ha with ha | ha <;> subst ha <;> rfl

/-- C10, as stated, fails: in a startup in which every step succeeds, `main`
reaches its run loop, and the registration request does not come before the
start of either sensor thread; it comes after both. -/
theorem registration_not_before_sensor_start :
    (main cfg0 env1).1 = .run_loop
    ∧ precedes .call_register (.thread_start .FOTA_THREAD_SENSOR_LIGHT) (main cfg0 env1).2 = false
    ∧ precedes .call_register (.thread_start .FOTA_THREAD_DHT) (main cfg0 env1).2 = false
    ∧ precedes (.thread_start .FOTA_THREAD_DHT) .call_register (main cfg0 env1).2 = true := by
  decide

/-- C10, amended: whenever `main` reaches its run loop, its calls are a prefix
that reports network success, then `start_sensors`, then `register_mbed_client`
(ending with `call_register`), and nothing before the end of `start_sensors`
is a registration request: both sensor threads are started after the network
connection succeeds and before the cloud registration. -/
theorem sensors_started_before_registration (c : Config) (e : Env)
    (h : (main c e).1 = .run_loop) :
    (∃ pre mid post : List Action,
      (main c e).2 = pre ++ start_sensors ++ mid ++ register_mbed_client.2 ++ post
      ∧ .display_set_network_success ∈ pre
      ∧ (∀ a ∈ pre ++ start_sensors ++ mid, a ≠ .call_register))
    ∧ precedes (.thread_start .FOTA_THREAD_SENSOR_LIGHT) .call_register (main c e).2 = true
    ∧ precedes (.thread_start .FOTA_THREAD_DHT) .call_register (main c e).2 = true
    ∧ precedes .call_register (.thread_start .FOTA_THREAD_SENSOR_LIGHT) (main c e).2 = false
    ∧ precedes .call_register (.thread_start .FOTA_THREAD_DHT) (main c e).2 = false := by
  obtain ⟨pre, htr, hns, hq⟩ := main_run_loop_trace c e h
  have nreg : Action.call_register ∉ pre := fun hm => by
    have := hq _ hm
    simp [is_sensor_start_or_register] at this
  have nlight : Action.thread_start .FOTA_THREAD_SENSOR_LIGHT ∉ pre := fun hm => by
    have := hq _ hm
    simp [is_sensor_start_or_register] at this
  have ndht : Action.thread_start .FOTA_THREAD_DHT ∉ pre := fun hm => by
    have := hq _ hm
    simp [is_sensor_start_or_register] at this
  have p1 : precedes (.thread_start .FOTA_THREAD_SENSOR_LIGHT) .call_register (main c e).2
      = true := by
    have hshape : (main c e).2
        = (pre ++ [ .printf "starting all sensors\n" [] ])
          ++ .thread_start .FOTA_THREAD_SENSOR_LIGHT
          :: ([ .thread_start .FOTA_THREAD_DHT, .printf "init mbed client\n" [] ]
              ++ register_mbed_client.2
              ++ [ .printf "main run loop\n" [], .thread_prompt_start ]) := by
      rw [htr]; simp [start_sensors]
    rw [hshape]
    apply precedes_of_split
    · simp
    · simp [nlight]
    · simp [nreg]
    · simp [register_mbed_client]
  have p2 : precedes (.thread_start .FOTA_THREAD_DHT) .call_register (main c e).2 = true := by
    have hshape : (main c e).2
        = (pre ++ [ .printf "starting all sensors\n" [],
                    .thread_start .FOTA_THREAD_SENSOR_LIGHT ])
          ++ .thread_start .FOTA_THREAD_DHT
          :: ([ .printf "init mbed client\n" [] ]
              ++ register_mbed_client.2
              ++ [ .printf "main run loop\n" [], .thread_prompt_start ]) := by
      rw [htr]; simp [start_sensors]
    rw [hshape]
    apply precedes_of_split
    · simp
    · simp [ndht]
    · simp [nreg]
    · simp [register_mbed_client]
  refine ⟨⟨pre, [ .printf "init mbed client\n" [] ],
      [ .printf "main run loop\n" [], .thread_prompt_start ], htr, hns, ?_⟩,
    p1, p2, precedes_asymm _ _ _ p1, precedes_asymm _ _ _ p2⟩
  intro a ha heq
  subst heq
  simp [start_sensors, nreg] at ha

/-- Witness for the amended C10: the startup in which every step succeeds at once. -/
theorem sensors_started_before_registration_witness :
    (∃ pre mid post : List Action,
      (main cfg0 env1).2 = pre ++ start_sensors ++ mid ++ register_mbed_client.2 ++ post
      ∧ .display_set_network_success ∈ pre
      ∧ (∀ a ∈ pre ++ start_sensors ++ mid, a ≠ .call_register))
    ∧ precedes (.thread_start .FOTA_THREAD_SENSOR_LIGHT) .call_register (main cfg0 env1).2 = true
    ∧ precedes (.thread_start .FOTA_THREAD_DHT) .call_register (main cfg0 env1).2 = true
    ∧ precedes .call_register (.thread_start .FOTA_THREAD_SENSOR_LIGHT) (main cfg0 env1).2 = false
    ∧ precedes .call_register (.thread_start .FOTA_THREAD_DHT) (main cfg0 env1).2 = false :=
  sensors_started_before_registration cfg0 env1 (by decide)

/-! ## Security names -/

/-- C13: `wifi_security_str2sec` has a result for every string; the six names
map as written ("NONE" and "OPEN" both to `NSAPI_SECURITY_NONE`), every other
string maps to `NSAPI_SECURITY_NONE`, among them the empty string, "wpa2" and
"WPA2 " with a trailing blank, and the result differs from
`NSAPI_SECURITY_NONE` exactly for the four names "WPA/WPA2", "WPA2", "WPA",
"WEP". -/
theorem wifi_security_str2sec_exact (s : String) :
    (wifi_security_str2sec "WPA/WPA2").1 = .NSAPI_SECURITY_WPA_WPA2
    ∧ (wifi_security_str2sec "WPA2").1 = .NSAPI_SECURITY_WPA2
    ∧ (wifi_security_str2sec "WPA").1 = .NSAPI_SECURITY_WPA
    ∧ (wifi_security_str2sec "WEP").1 = .NSAPI_SECURITY_WEP
    ∧ (wifi_security_str2sec "NONE").1 = .NSAPI_SECURITY_NONE
    ∧ (wifi_security_str2sec "OPEN").1 = .NSAPI_SECURITY_NONE
    ∧ (wifi_security_str2sec "").1 = .NSAPI_SECURITY_NONE
    ∧ (wifi_security_str2sec "wpa2").1 = .NSAPI_SECURITY_NONE
    ∧ (wifi_security_str2sec "WPA2 ").1 = .NSAPI_SECURITY_NONE
    ∧ (s ∉ ["WPA/WPA2", "WPA2", "WPA", "WEP", "NONE", "OPEN"] →
        (wifi_security_str2sec s).1 = .NSAPI_SECURITY_NONE)
    ∧ ((wifi_security_str2sec s).1 ≠ .NSAPI_SECURITY_NONE
        ↔ s ∈ ["WPA/WPA2", "WPA2", "WPA", "WEP"]) := by
  refine ⟨by decide, by decide, by decide, by decide, by decide, by decide, by decide,
    by decide, by decide, ?_, ?_⟩
  · intro hs
    simp only [List.mem_cons, List.mem_singleton, List.not_mem_nil, or_false, not_or] at hs
    obtain ⟨h1, h2, h3, h4, h5, h6⟩ := hs
    simp [wifi_security_str2sec, Ne.symm h1, Ne.symm h2, Ne.symm h3, Ne.symm h4, Ne.symm h5,
      Ne.symm h6]
  · unfold wifi_security_str2sec
    by_cases h1 : "WPA/WPA2" = s
    · subst h1; simp
    · by_cases h2 : "WPA2" = s
      · subst h2; simp
      · by_cases h3 : "WPA" = s
        · subst h3; simp
        · by_cases h4 : "WEP" = s
          · subst h4; simp
          · have e1 : ¬ s = "WPA/WPA2" := fun e => h1 e.symm
            have e2 : ¬ s = "WPA2" := fun e => h2 e.symm
            have e3 : ¬ s = "WPA" := fun e => h3 e.symm
            have e4 : ¬ s = "WEP" := fun e => h4 e.symm
            by_cases h5 : "NONE" = s <;> by_cases h6 : "OPEN" = s <;>
              simp [h1, h2, h3, h4, h5, h6, e1, e2, e3, e4]

/-- Witness for C13 at the lower-case spelling "wpa2". -/
theorem wifi_security_str2sec_exact_witness :
    (wifi_security_str2sec "wpa2").1 = .NSAPI_SECURITY_NONE :=
  (wifi_security_str2sec_exact "wpa2").2.2.2.2.2.2.2.2.2.1 (by decide)

/-! ## Provisioning -/

/-- A trace put together from two parts has no controller start when neither part has. -/
lemma no_controller_start_append (l1 l2 : List Action) :
    no_controller_start (l1 ++ l2) = (no_controller_start l1 && no_controller_start l2) := by
  simp [no_controller_start, List.all_append]

/-- `platform_init` makes no call that brings the controller to life. -/
lemma platform_init_no_controller_start (c : Config) (e : Env) :
    no_controller_start (platform_init c e).2 = true := by
  unfold platform_init
  split_ifs <;> simp [no_controller_start, is_controller_start]

/-- `init_fcc` makes no call that brings the controller to life. -/
lemma init_fcc_no_controller_start (c : Config) (e : Env) :
    no_controller_start (init_fcc c e).2 = true := by
  unfold init_fcc
  split_ifs <;> simp [no_controller_start, is_controller_start]

/-- `network_connect` makes no call that brings the controller to life. -/
lemma network_connect_no_controller_start (c : Config) (k : Keystore) (net : NetInfo)
    (r : Int) : no_controller_start (network_connect c k net r).2 = true := by
  unfold network_connect network_connect_wifi network_connect_eth
  rcases wifi_security_str2sec_log
    (if k.exists_ "security" then k.get "security" else c.MBED_CONF_APP_WIFI_SECURITY)
    with h | h <;> by_cases hw : c.MBED_CONF_APP_WIFI = true <;> by_cases hr : 0 = r <;>
    simp [h, hw, hr, no_controller_start, is_controller_start]

/-- The connect loop makes no call that brings the controller to life. -/
lemma main_connect_loop_no_controller_start (c : Config) (k : Keystore) (net : NetInfo)
    (rets : List Int) :
    ∀ t : List Action, main_connect_loop c k net rets = some t →
      no_controller_start t = true := by
  induction rets with
  | nil =>
    intro t ht
    simp [main_connect_loop] at ht
  | cons r rs ih =>
    intro t ht
    have hq := network_connect_no_controller_start c k net r
    rw [main_connect_loop] at ht
    by_cases hr : 0 ≠ (network_connect c k net r).1
    · rw [if_pos hr] at ht
      cases hrest : main_connect_loop c k net rs with
      | none => simp [hrest] at ht
      | some t2 =>
        simp only [hrest, Option.map_some', Option.some.injEq] at ht
        subst ht
        have h2 := ih t2 hrest
        simp only [failed_attempt, no_controller_start_append, hq, h2, Bool.and_true,
          Bool.true_and]
        simp [no_controller_start, is_controller_start]
    · rw [if_neg hr] at ht
      simp only [Option.some.injEq] at ht
      subst ht
      simp only [successful_attempt, no_controller_start_append, hq, Bool.and_true]
      simp [no_controller_start, is_controller_start]

/-- Lines 731-741 make no call that brings the controller to life. -/
lemma main_connect_phase_no_controller_start (c : Config) (k : Keystore) (net : NetInfo)
    (rets : List Int) (t : List Action) (ht : main_connect_phase c k net rets = some t) :
    no_controller_start t = true := by
  unfold main_connect_phase at ht
  cases hl : main_connect_loop c k net rets with
  | none => simp [hl] at ht
  | some tl =>
    simp only [hl, Option.some.injEq] at ht
    subst ht
    simp only [no_controller_start_append,
      main_connect_loop_no_controller_start c k net rets tl hl, Bool.true_and]
    simp [no_controller_start, is_controller_start]

/-- The status of `init_fcc`, case by case, when `FCC_STATUS_SUCCESS` is 0. -/
lemma init_fcc_status (c : Config) (e : Env) (h0 : c.FCC_STATUS_SUCCESS = 0) :
    ((init_fcc c e).1 ≠ 0
      ↔ (e.fcc_init_ret ≠ c.FCC_STATUS_SUCCESS
          ∨ (e.fcc_developer_flow_ret ≠ c.FCC_STATUS_SUCCESS
              ∧ e.fcc_developer_flow_ret ≠ c.FCC_STATUS_KCM_FILE_EXIST_ERROR)
          ∨ e.fcc_verify_ret ≠ c.FCC_STATUS_SUCCESS)) := by
  unfold init_fcc
  by_cases h1 : e.fcc_init_ret = c.FCC_STATUS_SUCCESS
  · by_cases h2 : e.fcc_developer_flow_ret = c.FCC_STATUS_KCM_FILE_EXIST_ERROR
    · by_cases h3 : e.fcc_verify_ret = c.FCC_STATUS_SUCCESS
      · simp [h1, h2, h3]
      · have h3z : ¬ e.fcc_verify_ret = 0 := fun hz => h3 (hz.trans h0.symm)
        simp [h1, h2, h3, h3z]
    · by_cases h4 : e.fcc_developer_flow_ret = c.FCC_STATUS_SUCCESS
      · by_cases h3 : e.fcc_verify_ret = c.FCC_STATUS_SUCCESS
        · simp [h1, h2, h3, h4]
        · have h3z : ¬ e.fcc_verify_ret = 0 := fun hz => h3 (hz.trans h0.symm)
          simp [h1, h2, h3, h4, h3z]
      · have h4z : ¬ e.fcc_developer_flow_ret = 0 := fun hz => h4 (hz.trans h0.symm)
        simp [h1, h2, h4, h4z]
  · have h1z : ¬ e.fcc_init_ret = 0 := fun hz => h1 (hz.trans h0.symm)
    simp [h1, h1z]

/-- When `init_fcc` fails, `main` does not reach its run loop and its calls
contain none that brings the controller to life. -/
lemma main_no_controller_start (c : Config) (e : Env) (hf : (init_fcc c e).1 ≠ 0) :
    (main c e).1 ≠ .run_loop ∧ no_controller_start (main c e).2 = true := by
  have hf2 : 0 ≠ (init_fcc c e).1 := fun h => hf h.symm
  have q1 := platform_init_no_controller_start c e
  have q2 := init_fcc_no_controller_start c e
  by_cases hpi : 0 ≠ (platform_init c e).1
  · have hm : main c e
        = (.returned (platform_init c e).1,
            [ .printf "FOTA demo version: %s\n" [.str c.MBED_CONF_APP_VERSION],
              .printf ("     code version: " ++ c.DEVTAG ++ "\n") [],
              .printf "init platform\n" [] ] ++ (platform_init c e).2) := by
      simp [main, hpi]
    rw [hm]
    refine ⟨by simp, ?_⟩
    simp only [no_controller_start_append, q1, Bool.and_true]
    simp [no_controller_start, is_controller_start]
  · by_cases hn : e.net_is_null = true
    · have hm : main c e
          = (.returned (- c.ENODEV),
              [ .printf "FOTA demo version: %s\n" [.str c.MBED_CONF_APP_VERSION],
                .printf ("     code version: " ++ c.DEVTAG ++ "\n") [],
                .printf "init platform\n" [] ] ++ (platform_init c e).2
              ++ [ .printf "init platform: OK\n" [], .new_M2MClient,
                   .printf "init network\n" [] ]
              ++ network_create c
              ++ [ .printf "ERROR: failed to create network stack\n" [],
                   .display_set_network_fail ]) := by
        simp [main, hpi, hn]
      rw [hm]
      refine ⟨by simp, ?_⟩
      simp only [no_controller_start_append, q1, Bool.and_true, Bool.true_and]
      simp [no_controller_start, is_controller_start, network_create]
    · cases hc : main_connect_phase c e.keystore e.netinfo e.connect_rets with
      | none =>
        have hm : main c e
            = (.connecting,
                [ .printf "FOTA demo version: %s\n" [.str c.MBED_CONF_APP_VERSION],
                  .printf ("     code version: " ++ c.DEVTAG ++ "\n") [],
                  .printf "init platform\n" [] ] ++ (platform_init c e).2
                ++ [ .printf "init platform: OK\n" [], .new_M2MClient,
                     .printf "init network\n" [] ]
                ++ network_create c) := by
          simp [main, hpi, hn, hc]
        rw [hm]
        refine ⟨by simp, ?_⟩
        simp only [no_controller_start_append, q1, Bool.and_true, Bool.true_and]
        simp [no_controller_start, is_controller_start, network_create]
      | some tc =>
        have q3 := main_connect_phase_no_controller_start c e.keystore e.netinfo
          e.connect_rets tc hc
        have hm : main c e
            = (.returned (init_fcc c e).1,
                [ .printf "FOTA demo version: %s\n" [.str c.MBED_CONF_APP_VERSION],
                  .printf ("     code version: " ++ c.DEVTAG ++ "\n") [],
                  .printf "init platform\n" [] ] ++ (platform_init c e).2
                ++ [ .printf "init platform: OK\n" [], .new_M2MClient,
                     .printf "init network\n" [] ]
                ++ network_create c ++ tc
                ++ [ .printf "init factory configuration client\n" [] ]
                ++ (init_fcc c e).2
                ++ [ .printf "ERROR: failed to init factory configuration client: %d\n"
                       [.num (init_fcc c e).1] ]) := by
          simp [main, hpi, hn, hc, hf2]
        rw [hm]
        refine ⟨by simp, ?_⟩
        simp only [no_controller_start_append, q1, q2, q3, Bool.and_true, Bool.true_and]
        simp [no_controller_start, is_controller_start, network_create]

/-- C11: with `FCC_STATUS_SUCCESS` equal to 0, `init_fcc` returns a non-zero
status exactly when `fcc_init` fails, or `fcc_developer_flow` fails with a
status other than "credentials already exist", or
`fcc_verify_device_configured_4mbed_cloud` fails, and 0 otherwise.  Whenever
its status is non-zero, `main` does not reach its run loop and makes no call
that starts a sensor thread or belongs to `register_mbed_client`; and when
`main` gets as far as `init_fcc` (platform initialised, network created and
connected), it returns that same status. -/
theorem provisioning_failure_is_fatal (c : Config) (e : Env)
    (h0 : c.FCC_STATUS_SUCCESS = 0) :
    ((init_fcc c e).1 ≠ 0
      ↔ (e.fcc_init_ret ≠ c.FCC_STATUS_SUCCESS
          ∨ (e.fcc_developer_flow_ret ≠ c.FCC_STATUS_SUCCESS
              ∧ e.fcc_developer_flow_ret ≠ c.FCC_STATUS_KCM_FILE_EXIST_ERROR)
          ∨ e.fcc_verify_ret ≠ c.FCC_STATUS_SUCCESS))
    ∧ ((init_fcc c e).1 ≠ 0 →
        (main c e).1 ≠ .run_loop
        ∧ (∀ a ∈ (main c e).2, is_controller_start a = false)
        ∧ (∀ a ∈ start_sensors ++ register_mbed_client.2,
            a ≠ .printf "starting all sensors\n" [] → a ∉ (main c e).2)
        ∧ ((platform_init c e).1 = 0 → e.net_is_null = false →
            main_connect_phase c e.keystore e.netinfo e.connect_rets ≠ none →
            (main c e).1 = .returned (init_fcc c e).1)) := by
  refine ⟨init_fcc_status c e h0, ?_⟩
  intro hf
  obtain ⟨hrun, hq⟩ := main_no_controller_start c e hf
  have hall : ∀ a ∈ (main c e).2, is_controller_start a = false := by
    intro a ha
    have := (List.all_eq_true.mp hq) a ha
    simpa using this
  refine ⟨hrun, hall, ?_, ?_⟩
  · intro a ha hne hmem
    have hfalse := hall a hmem
    simp only [start_sensors, register_mbed_client, List.mem_append, List.mem_cons,
      List.mem_singleton, List.not_mem_nil, or_false] at ha
    rcases ha with (ha | ha | ha) | ha
    · exact hne ha
    · subst ha; simp [is_controller_start] at hfalse
    · subst ha; simp [is_controller_start] at hfalse
    · rcases ha with ha | ha | ha | ha | ha | ha | ha <;> subst ha <;>
        simp [is_controller_start] at hfalse
  · intro hpi hn hc
    have hf2 : 0 ≠ (init_fcc c e).1 := fun h => hf h.symm
    have hpi2 : ¬ 0 ≠ (platform_init c e).1 := fun h => h hpi.symm
    cases hcp : main_connect_phase c e.keystore e.netinfo e.connect_rets with
    | none => exact absurd hcp hc
    | some tc => simp [main, hpi2, hn, hcp, hf2]

/-- Witness for C11: the verification step fails with status 2 after the
network came up at the second attempt; `main` returns 2. -/
theorem provisioning_failure_is_fatal_witness :
    (init_fcc cfg0 env2).1 = 2
    ∧ (main cfg0 env2).1 = .returned 2
    ∧ (∀ a ∈ (main cfg0 env2).2, is_controller_start a = false) :=
  ⟨by decide,
   ((provisioning_failure_is_fatal cfg0 env2 rfl).2 (by decide)).2.2.2
      (by decide) (by decide) (by decide),
   ((provisioning_failure_is_fatal cfg0 env2 rfl).2 (by decide)).2.1⟩

/-! ## Sensor sampling -/

/-- The loop of `thread_dht` over two runs of answers makes the calls for the
first run and then those for the second. -/
lemma thread_dht_loop_append (ERROR_NONE thermo_id humidity_id : Int)
    (before after : List DhtReading) :
    thread_dht_loop ERROR_NONE thermo_id humidity_id (before ++ after)
      = thread_dht_loop ERROR_NONE thermo_id humidity_id before
        ++ thread_dht_loop ERROR_NONE thermo_id humidity_id after := by
  induction before with
  | nil => simp [thread_dht_loop]
  | cons r rest ih => simp [thread_dht_loop, ih]

/-- A pass in which the read succeeds writes both resource values and both
status lines. -/
lemma dht_read_success_publishes (ERROR_NONE thermo_id humidity_id : Int) (r : DhtReading)
    (hok : r.readError = ERROR_NONE) (values : DhtResource → String) :
    resources_after values (thread_dht_iteration ERROR_NONE thermo_id humidity_id r) .dht_t_res
      = r.temperature_text
    ∧ resources_after values (thread_dht_iteration ERROR_NONE thermo_id humidity_id r)
        .dht_h_res = r.humidity_text
    ∧ (thread_dht_iteration ERROR_NONE thermo_id humidity_id r).countP is_sensor_publish
        = 4 := by
  simp [thread_dht_iteration, hok, resources_after, resource_step, is_sensor_publish]

/-- C12: a pass of the `thread_dht` loop in which `dht.readData()` answers an
error makes three calls: the read, the error line, and the 5000 ms wait.  It
writes neither resource value and no sensor status line, so both are what
they were before the pass; and in the loop the pass is followed by the passes
for all later answers, as after a successful read. -/
theorem dht_read_failure_is_skipped (ERROR_NONE thermo_id humidity_id : Int) (r : DhtReading)
    (herr : r.readError ≠ ERROR_NONE) :
    thread_dht_iteration ERROR_NONE thermo_id humidity_id r
      = [ .dht_readData,
          .tr_error "DHT: readData() failed with %d\n" [.num r.readError],
          .Thread_wait 5000 ]
    ∧ (∀ a ∈ thread_dht_iteration ERROR_NONE thermo_id humidity_id r,
        is_sensor_publish a = false)
    ∧ (∀ values : DhtResource → String,
        resources_after values (thread_dht_iteration ERROR_NONE thermo_id humidity_id r)
          = values)
    ∧ (∀ status : Int → String,
        sensor_status_after status (thread_dht_iteration ERROR_NONE thermo_id humidity_id r)
          = status)
    ∧ (thread_dht_iteration ERROR_NONE thermo_id humidity_id r).countP is_sample_wait = 1
    ∧ (∀ before after : List DhtReading,
        thread_dht_loop ERROR_NONE thermo_id humidity_id (before ++ r :: after)
          = thread_dht_loop ERROR_NONE thermo_id humidity_id before
            ++ [ .dht_readData,
                 .tr_error "DHT: readData() failed with %d\n" [.num r.readError],
                 .Thread_wait 5000 ]
            ++ thread_dht_loop ERROR_NONE thermo_id humidity_id after) := by
  have e : thread_dht_iteration ERROR_NONE thermo_id humidity_id r
      = [ .dht_readData,
          .tr_error "DHT: readData() failed with %d\n" [.num r.readError],
          .Thread_wait 5000 ] := by
    simp [thread_dht_iteration, herr]
  refine ⟨e, ?_, ?_, ?_, ?_, ?_⟩
  · rw [e]
    simp [is_sensor_publish]
  · intro values
    rw [e]
    rfl
  · intro status
    rw [e]
    rfl
  · rw [e]
    simp [is_sample_wait]
  · intro before after
    rw [thread_dht_loop_append, thread_dht_loop, e]
    simp

/-- Witness for C12: `ERROR_NONE` is 0 and the driver answers the error status 6. -/
theorem dht_read_failure_is_skipped_witness :
    thread_dht_iteration 0 1 2 ⟨6, "21.5", "40"⟩
      = [ .dht_readData,
          .tr_error "DHT: readData() failed with %d\n" [.num 6],
          .Thread_wait 5000 ]
    ∧ (∀ values : DhtResource → String,
        resources_after values (thread_dht_iteration 0 1 2 ⟨6, "21.5", "40"⟩) = values) :=
  ⟨(dht_read_failure_is_skipped 0 1 2 ⟨6, "21.5", "40"⟩ (by decide)).1,
   (dht_read_failure_is_skipped 0 1 2 ⟨6, "21.5", "40"⟩ (by decide)).2.2.1⟩

end Fota
